import Mathlib

/-!  A shallow embedding of the TRDP simulator core: payload resolution
(config.cpp), the in-process loopback transport (trdp_stack_adapter_stub.cpp),
the cyclic workers' payload update (trdp_pd_worker.cpp / trdp_md_worker.cpp),
runtime metrics (runtime_metrics.cpp) and the simulator lifecycle
(simulator.cpp), translated from the C++ sources, together with theorems
settling the specification claims.  Callbacks (std::function handlers) are
opaque to the transport, so handler invocations are modelled as an event list
returned alongside the successor state; a handler itself is represented by the
boolean the C++ code tests (non-null or null). -/

namespace TrdpSim

/-- Payload bytes are modelled as lists of naturals below 256. -/
abbrev Bytes := List Nat

/-- The nested enum PayloadConfig Format from config.hpp. -/
inductive PayloadFormat
  | Hex
  | Text
  | File
deriving DecidableEq

/-- PayloadConfig from config.hpp. -/
structure PayloadConfig where
  format : PayloadFormat
  value : String
deriving DecidableEq

/-- C-locale isspace over the byte characters the C++ code feeds it. -/
def is_space_char (c : Char) : Bool :=
  c = ' ' || c = '\t' || c = '\n' || c = '\x0b' || c = '\x0c' || c = '\r'

/-- The hex_value lambda inside from_hex (config.cpp): the value of one hex
digit, or the C++ exception text for an invalid character. -/
def hex_value (c : Char) : Except String Nat :=
  if '0' ≤ c ∧ c ≤ '9' then .ok (c.toNat - '0'.toNat)
  else if 'a' ≤ c ∧ c ≤ 'f' then .ok (c.toNat - 'a'.toNat + 10)
  else if 'A' ≤ c ∧ c ≤ 'F' then .ok (c.toNat - 'A'.toNat + 10)
  else .error ("Invalid hex character: " ++ String.mk [c])

/-- The conversion loop of from_hex: two hex digits per output byte, high
nibble shifted left by four (written as multiplication by 16).  The loop is
only entered on even-length input; a dangling digit reports the even-length
failure text. -/
def hex_pairs : List Char → Except String Bytes
  | [] => .ok []
  | [_] => .error "Hex payload must contain an even number of characters"
  | c1 :: c2 :: rest =>
    match hex_value c1 with
    | .error m => .error m
    | .ok high =>
      match hex_value c2 with
      | .error m => .error m
      | .ok low =>
        match hex_pairs rest with
        | .error m => .error m
        | .ok tail => .ok ((high * 16 + low) :: tail)

/-- from_hex (config.cpp, current version): drop whitespace, require an even
character count of the sanitized string, convert hex digit pairs to bytes. -/
def from_hex (hex : String) : Except String Bytes :=
  let sanitized := hex.data.filter (fun c => !is_space_char c)
  if sanitized.length % 2 ≠ 0 then
    .error "Hex payload must contain an even number of characters"
  else
    hex_pairs sanitized

/-- from_text (config.cpp): the byte encoding of the string, modelled at the
character-code level. -/
def from_text (text : String) : Bytes := text.data.map Char.toNat

/-- from_file (config.cpp).  File contents are not part of the program, so the
surrounding filesystem is passed in as a map from paths to byte contents;
a missing file produces the C++ exception text. -/
def from_file (fs : String → Option Bytes) (path : String) : Except String Bytes :=
  match fs path with
  | some contents => .ok contents
  | none => .error ("Unable to open payload file: " ++ path)

/-- load_payload (config.cpp). -/
def load_payload (fs : String → Option Bytes) (payload : PayloadConfig) : Except String Bytes :=
  match payload.format with
  | .Hex => from_hex payload.value
  | .Text => .ok (from_text payload.value)
  | .File => from_file fs payload.value

/-- PdPublisherConfig from config.hpp. -/
structure PdPublisherConfig where
  name : String
  comId : Nat
  datasetId : Nat
  etbTopoCount : Nat
  opTrnTopoCount : Nat
  sourceIp : String
  destIp : String
  cycleTimeMs : Nat
  redundancyGroup : Nat
  useSequenceCounter : Bool
  payload : PayloadConfig
deriving DecidableEq

/-- PdSubscriberConfig from config.hpp. -/
structure PdSubscriberConfig where
  name : String
  comId : Nat
  etbTopoCount : Nat
  opTrnTopoCount : Nat
  sourceIp : String
  destIp : String
  timeoutMs : Nat
  enableComIdFiltering : Bool
deriving DecidableEq

/-- MdSenderConfig from config.hpp. -/
structure MdSenderConfig where
  name : String
  comId : Nat
  replyComId : Nat
  sourceIp : String
  destIp : String
  cycleTimeMs : Nat
  replyTimeoutMs : Nat
  expectReply : Bool
  payload : PayloadConfig
deriving DecidableEq

/-- MdListenerConfig from config.hpp. -/
structure MdListenerConfig where
  name : String
  comId : Nat
  sourceIp : String
  destIp : String
  autoReply : Bool
  replyPayload : PayloadConfig
deriving DecidableEq

/-- The value-initialized MdListenerConfig the C++ code falls back to when
send_md_reply does not find the named listener. -/
def defaultMdListenerConfig : MdListenerConfig :=
  { name := "", comId := 0, sourceIp := "", destIp := "", autoReply := false,
    replyPayload := { format := PayloadFormat.Hex, value := "" } }

/-- PdMessage from trdp_stack_adapter.hpp. -/
structure PdMessage where
  endpoint : String
  comId : Nat
  payload : Bytes
  sequenceCounter : Nat
deriving DecidableEq

/-- The 16-byte MdSessionId, modelled as its list of byte values. -/
abbrev MdSessionId := List Nat

/-- MdSessionIdSize from trdp_stack_adapter.hpp. -/
def MdSessionIdSize : Nat := 16

/-- make_session_id (trdp_stack_adapter_stub.cpp): the 32-bit counter value is
written big-endian into the low end of the 16-byte id (byte index
size-1-index holds bits 8*index and up of the uint32 value). -/
def make_session_id (value : Nat) : MdSessionId :=
  (List.range MdSessionIdSize).map
    (fun i => ((value % 2 ^ 32) >>> (8 * (MdSessionIdSize - 1 - i))) % 256)

/-- MdMessage from trdp_stack_adapter.hpp. -/
structure MdMessage where
  endpoint : String
  comId : Nat
  payload : Bytes
  sessionId : MdSessionId
deriving DecidableEq

/-- One observable handler invocation made by the loopback transport: either a
request delivered to a registered listener's handler, or a reply delivered to
a sender's reply handler. -/
inductive MdEvent
  | toListener (listenerName : String) (message : MdMessage)
  | toSenderReply (senderName : String) (message : MdMessage)
deriving DecidableEq

/-- fallback_endpoint (trdp_stack_adapter_stub.cpp). -/
def fallback_endpoint (name ip : String) : String :=
  if ip = "" then name else ip

/-- Lookup in an association list modelling unordered_map find. -/
def assoc_find {α β : Type} [DecidableEq α] : List (α × β) → α → Option β
  | [], _ => none
  | p :: rest, k => if p.1 = k then some p.2 else assoc_find rest k

/-- Key assignment in an association list, modelling the map subscript
operator: the new binding replaces any binding of the same key. -/
def assoc_set {α β : Type} [DecidableEq α] (m : List (α × β)) (k : α) (v : β) :
    List (α × β) :=
  (k, v) :: m.filter (fun p => p.1 ≠ k)

/-- Key removal from an association list, modelling unordered_map erase. -/
def assoc_erase {α β : Type} [DecidableEq α] (m : List (α × β)) (k : α) :
    List (α × β) :=
  m.filter (fun p => p.1 ≠ k)

/-- PdPublisherState (trdp_stack_adapter_stub.cpp).  sequenceCounter embeds
the std::uint64_t member; the operations keep it below 2 to the 64 by
wrapping on increment. -/
structure PdPublisherState where
  config : PdPublisherConfig
  sequenceCounter : Nat
deriving DecidableEq

/-- PdSubscriberState (trdp_stack_adapter_stub.cpp); the stored std::function
handler is represented by the boolean the delivery loop tests. -/
structure PdSubscriberState where
  config : PdSubscriberConfig
  hasHandler : Bool
deriving DecidableEq

/-- MdSenderState (trdp_stack_adapter_stub.cpp). -/
structure MdSenderState where
  config : MdSenderConfig
  hasReplyHandler : Bool
deriving DecidableEq

/-- MdListenerState (trdp_stack_adapter_stub.cpp). -/
structure MdListenerState where
  config : MdListenerConfig
  hasHandler : Bool
deriving DecidableEq

/-- MdSessionState (trdp_stack_adapter_stub.cpp). -/
structure MdSessionState where
  senderName : String
  hasReplyHandler : Bool
deriving DecidableEq

/-- The members of StubTrdpStackAdapter.  The maps keyed by name or session id
are association lists with set/erase key semantics; the subscriber and
listener vectors keep registration order.  nextSessionId is the uint32
counter, kept below 2 to the 32 by the operations. -/
structure AdapterState where
  pdPublishers : List (String × PdPublisherState)
  pdSubscribers : List PdSubscriberState
  mdSenders : List (String × MdSenderState)
  mdListeners : List MdListenerState
  mdSessions : List (MdSessionId × MdSessionState)
  nextSessionId : Nat
deriving DecidableEq

/-- A freshly constructed StubTrdpStackAdapter: empty tables, session counter
initialized to one. -/
def initialAdapterState : AdapterState :=
  { pdPublishers := [], pdSubscribers := [], mdSenders := [], mdListeners := [],
    mdSessions := [], nextSessionId := 1 }

/-- StubTrdpStackAdapter shutdown: clear every registration table. -/
def shutdown (st : AdapterState) : AdapterState :=
  { st with pdPublishers := [], pdSubscribers := [], mdSenders := [],
            mdListeners := [], mdSessions := [] }

/-- StubTrdpStackAdapter register_pd_publisher: store the configuration with a
zeroed sequence counter under the publisher's name. -/
def register_pd_publisher (st : AdapterState) (config : PdPublisherConfig) :
    AdapterState :=
  let entry : PdPublisherState := { config := config, sequenceCounter := 0 }
  { st with pdPublishers := assoc_set st.pdPublishers config.name entry }

/-- StubTrdpStackAdapter register_pd_subscriber: append to the subscriber
vector in registration order. -/
def register_pd_subscriber (st : AdapterState) (config : PdSubscriberConfig)
    (hasHandler : Bool) : AdapterState :=
  let entry : PdSubscriberState := { config := config, hasHandler := hasHandler }
  { st with pdSubscribers := st.pdSubscribers ++ [entry] }

/-- matches_pd_subscription (trdp_stack_adapter_stub.cpp). -/
def matches_pd_subscription (subscriber : PdSubscriberConfig)
    (publisher : PdPublisherConfig) : Bool :=
  if subscriber.enableComIdFiltering ∧ subscriber.comId ≠ 0 ∧
      subscriber.comId ≠ publisher.comId then false
  else if subscriber.sourceIp ≠ "" ∧ publisher.destIp ≠ "" ∧
      subscriber.sourceIp ≠ publisher.destIp then false
  else if subscriber.destIp ≠ "" ∧ publisher.sourceIp ≠ "" ∧
      subscriber.destIp ≠ publisher.sourceIp then false
  else true

/-- StubTrdpStackAdapter publish_pd.  The unknown-name branch throws; the
successful branch bumps the publisher's uint64 sequence counter (wrapping
modulo 2 to the 64), collects the matching subscribers in registration
order, and invokes each non-null handler with the one message built from
the publisher's state.  Deliveries are returned as index-tagged events, the
index being the subscriber's position in the registration vector. -/
def publish_pd (st : AdapterState) (publisherName : String) (data : Bytes) :
    Except String (AdapterState × List (Nat × PdMessage)) :=
  match assoc_find st.pdPublishers publisherName with
  | none => .error ("Unknown PD publisher \x27" ++ publisherName ++ "\x27")
  | some pub =>
    let sequence := (pub.sequenceCounter + 1) % 2 ^ 64
    let entry : PdPublisherState := { config := pub.config, sequenceCounter := sequence }
    let st' := { st with pdPublishers := assoc_set st.pdPublishers publisherName entry }
    let targets := st.pdSubscribers.enum.filter
        (fun p => matches_pd_subscription p.2.config pub.config)
    let message : PdMessage :=
      { endpoint := fallback_endpoint publisherName pub.config.sourceIp,
        comId := pub.config.comId, payload := data, sequenceCounter := sequence }
    let events := targets.filterMap
        (fun p => if p.2.hasHandler then some (p.1, message) else none)
    .ok (st', events)

/-- StubTrdpStackAdapter register_md_sender. -/
def register_md_sender (st : AdapterState) (config : MdSenderConfig)
    (hasReplyHandler : Bool) : AdapterState :=
  let entry : MdSenderState := { config := config, hasReplyHandler := hasReplyHandler }
  { st with mdSenders := assoc_set st.mdSenders config.name entry }

/-- StubTrdpStackAdapter register_md_listener: append to the listener vector
in registration order. -/
def register_md_listener (st : AdapterState) (config : MdListenerConfig)
    (hasHandler : Bool) : AdapterState :=
  let entry : MdListenerState := { config := config, hasHandler := hasHandler }
  { st with mdListeners := st.mdListeners ++ [entry] }

/-- matches_md_listener (trdp_stack_adapter_stub.cpp). -/
def matches_md_listener (listener : MdListenerConfig) (sender : MdSenderConfig) :
    Bool :=
  if listener.comId ≠ 0 ∧ listener.comId ≠ sender.comId then false
  else if listener.destIp ≠ "" ∧ sender.destIp ≠ "" ∧
      listener.destIp ≠ sender.destIp then false
  else if listener.sourceIp ≠ "" ∧ sender.sourceIp ≠ "" ∧
      listener.sourceIp ≠ sender.sourceIp then false
  else true

/-- StubTrdpStackAdapter send_md_request.  An unknown sender throws.
Otherwise: draw the next value of the wrapping uint32 session counter, encode
it as the session id, record a pending session when the sender has a reply
handler, deliver the request to every matching listener's non-null handler,
and, for a sender not expecting a reply, deliver an immediate synthetic empty
reply to the sender's own reply handler and erase the pending session. -/
def send_md_request (st : AdapterState) (senderName : String) (data : Bytes) :
    Except String (AdapterState × List MdEvent) :=
  match assoc_find st.mdSenders senderName with
  | none => .error ("Unknown MD sender \x27" ++ senderName ++ "\x27")
  | some sender =>
    let sessionId := make_session_id st.nextSessionId
    let nextCounter := (st.nextSessionId + 1) % 2 ^ 32
    let listeners := st.mdListeners.filter
        (fun l => matches_md_listener l.config sender.config)
    let sessEntry : MdSessionState := { senderName := senderName, hasReplyHandler := true }
    let sessions1 :=
      if sender.hasReplyHandler then assoc_set st.mdSessions sessionId sessEntry
      else st.mdSessions
    let request : MdMessage :=
      { endpoint := fallback_endpoint senderName sender.config.sourceIp,
        comId := sender.config.comId, payload := data, sessionId := sessionId }
    let listenerEvents := listeners.filterMap
        (fun l => if l.hasHandler then some (MdEvent.toListener l.config.name request)
                  else none)
    if ¬sender.config.expectReply ∧ sender.hasReplyHandler then
      let reply : MdMessage :=
        { endpoint := if sender.config.destIp = "" then "stub-listener"
                      else sender.config.destIp,
          comId := if sender.config.replyComId = 0 then sender.config.comId
                   else sender.config.replyComId,
          payload := [], sessionId := sessionId }
      .ok ({ st with mdSessions := assoc_erase sessions1 sessionId,
                     nextSessionId := nextCounter },
           listenerEvents ++ [MdEvent.toSenderReply senderName reply])
    else
      .ok ({ st with mdSessions := sessions1, nextSessionId := nextCounter },
           listenerEvents)

/-- The listener configuration send_md_reply consults for the reply's
endpoint string: the first registered listener of the given name, or a
value-initialized configuration when none matches. -/
def reply_endpoint_config (st : AdapterState) (listenerName : String) :
    MdListenerConfig :=
  match st.mdListeners.find? (fun l => l.config.name = listenerName) with
  | some l => l.config
  | none => defaultMdListenerConfig

/-- StubTrdpStackAdapter send_md_reply.  Without a pending session for the
request's session id the call is a silent no-op.  Otherwise the session is
erased, the listener table is consulted only for the endpoint string, and
one reply message is delivered to the recorded reply handler. -/
def send_md_reply (st : AdapterState) (listenerName : String)
    (request : MdMessage) (data : Bytes) : AdapterState × List MdEvent :=
  match assoc_find st.mdSessions request.sessionId with
  | none => (st, [])
  | some sess =>
    let st' := { st with mdSessions := assoc_erase st.mdSessions request.sessionId }
    let listenerConfig := reply_endpoint_config st listenerName
    if ¬sess.hasReplyHandler then (st', [])
    else
      let reply : MdMessage :=
        { endpoint := fallback_endpoint listenerName listenerConfig.sourceIp,
          comId := request.comId, sessionId := request.sessionId, payload := data }
      (st', [MdEvent.toSenderReply sess.senderName reply])

/-- The payload-related state a cyclic worker keeps under its payload mutex:
the active payload bytes and the payload member of its stored
configuration. -/
structure WorkerPayloadState where
  payload : Bytes
  configPayload : PayloadConfig
deriving DecidableEq

namespace PdPublisherWorker

/-- PdPublisherWorker update_payload (trdp_pd_worker.cpp): resolve the new
spec; on success swap both the active bytes and the stored payload config
under the payload lock and return true; on failure write the exception text
into the caller's error string, leave the state untouched and return false.
The error string is an out-parameter, so its prior contents are returned
unchanged on success. -/
def update_payload (fs : String → Option Bytes) (st : WorkerPayloadState)
    (format : PayloadFormat) (value : String) (error_message : String) :
    Bool × WorkerPayloadState × String :=
  let payloadSpec : PayloadConfig := { format := format, value := value }
  match load_payload fs payloadSpec with
  | .ok data => (true, { payload := data, configPayload := payloadSpec }, error_message)
  | .error msg => (false, st, msg)

end PdPublisherWorker

namespace MdSenderWorker

/-- MdSenderWorker update_payload (trdp_md_worker.cpp): textually the same
routine as the PD publisher worker's. -/
def update_payload (fs : String → Option Bytes) (st : WorkerPayloadState)
    (format : PayloadFormat) (value : String) (error_message : String) :
    Bool × WorkerPayloadState × String :=
  let payloadSpec : PayloadConfig := { format := format, value := value }
  match load_payload fs payloadSpec with
  | .ok data => (true, { payload := data, configPayload := payloadSpec }, error_message)
  | .error msg => (false, st, msg)

end MdSenderWorker

/-- RuntimeMetrics PdPublisherStats (runtime_metrics.hpp). -/
structure PdPublisherStats where
  name : String
  packetsSent : Nat
deriving DecidableEq

/-- RuntimeMetrics PdSubscriberStats (runtime_metrics.hpp). -/
structure PdSubscriberStats where
  name : String
  packetsReceived : Nat
deriving DecidableEq

/-- RuntimeMetrics MdSenderStats (runtime_metrics.hpp). -/
structure MdSenderStats where
  name : String
  requestsSent : Nat
  repliesReceived : Nat
deriving DecidableEq

/-- RuntimeMetrics MdListenerStats (runtime_metrics.hpp). -/
structure MdListenerStats where
  name : String
  requestsReceived : Nat
  repliesSent : Nat
deriving DecidableEq

/-- The members of RuntimeMetrics: status fields plus the four per-endpoint
stats maps keyed by endpoint name. -/
structure RuntimeMetrics where
  simulatorRunning : Bool
  adapterInitialized : Bool
  adapterState : String
  pdPublishers : List (String × PdPublisherStats)
  pdSubscribers : List (String × PdSubscriberStats)
  mdSenders : List (String × MdSenderStats)
  mdListeners : List (String × MdListenerStats)
deriving DecidableEq

namespace RuntimeMetrics

/-- RuntimeMetrics set_simulator_running (runtime_metrics.cpp). -/
def set_simulator_running (m : RuntimeMetrics) (running : Bool) : RuntimeMetrics :=
  { m with simulatorRunning := running }

/-- RuntimeMetrics set_adapter_status (runtime_metrics.cpp). -/
def set_adapter_status (m : RuntimeMetrics) (initialized : Bool) (state : String) :
    RuntimeMetrics :=
  { m with adapterInitialized := initialized, adapterState := state }

/-- RuntimeMetrics reset (runtime_metrics.cpp). -/
def reset (m : RuntimeMetrics) : RuntimeMetrics :=
  { m with simulatorRunning := false, adapterInitialized := false,
           adapterState := "Idle", pdPublishers := [], pdSubscribers := [],
           mdSenders := [], mdListeners := [] }

end RuntimeMetrics

/-- The lifecycle-relevant members of Simulator (simulator.hpp): the atomic
running flag, the cleanedUp flag, the two worker vectors (each worker reduced
to the atomic running flag its start/stop logic uses), whether the poll
thread is joinable, the owned transport adapter and the owned metrics. -/
structure SimulatorState where
  running : Bool
  cleanedUp : Bool
  pdWorkers : List Bool
  mdWorkers : List Bool
  eventThreadJoinable : Bool
  adapter : AdapterState
  metrics : RuntimeMetrics
deriving DecidableEq

/-- PdPublisherWorker stop / MdSenderWorker stop: exchange the running flag
to false (joining the thread when it was set). -/
def worker_stop (_running : Bool) : Bool :=
  false

/-- The rfind at position zero the C++ code uses: does the string start with
the given text (checked on the character list). -/
def string_starts_with (s p : String) : Bool :=
  p.data.isPrefixOf s.data

/-- The predicate Simulator stop uses on the prior adapter-state string to
decide whether a recorded failure must be preserved: non-empty and starting
with the running-phase or initialization failure text. -/
def adapter_error_state (s : String) : Bool :=
  s ≠ "" && (string_starts_with s "Error" || string_starts_with s "Initialization failed")

/-- Simulator stop (simulator.cpp).  Reads and clears the running flag,
snapshots the prior metrics adapter-state string, wakes the blocked run
caller, and, unless a previous stop already cleaned up, stops every worker,
joins the poll thread, invokes transport shutdown with any error swallowed,
and clears the worker vectors.  Finally the metrics adapter state is set to
Stopped unless the prior string recorded an error, which is preserved, and
the simulator-running flag is cleared. -/
def Simulator.stop (s : SimulatorState) : SimulatorState :=
  let wasRunning := s.running
  let priorState := s.metrics.adapterState
  let s1 := { s with running := false }
  let s2 :=
    if wasRunning || !s1.cleanedUp then
      let _stoppedPd := s1.pdWorkers.map worker_stop
      let _stoppedMd := s1.mdWorkers.map worker_stop
      { s1 with cleanedUp := true,
                pdWorkers := [],
                mdWorkers := [],
                eventThreadJoinable := false,
                adapter := shutdown s1.adapter }
    else s1
  let m1 :=
    if adapter_error_state priorState then
      s2.metrics.set_adapter_status false priorState
    else
      s2.metrics.set_adapter_status false "Stopped"
  { s2 with metrics := m1.set_simulator_running false }

/-- Iterated publish_pd for one publisher name with a fixed payload, keeping
the successor state of each successful call (the unknown-name branch leaves
the state unchanged, as the exception is thrown before any mutation). -/
def pd_publish_iter (st : AdapterState) (name : String) (data : Bytes) :
    Nat → AdapterState
  | 0 => st
  | n + 1 =>
    match publish_pd (pd_publish_iter st name data n) name data with
    | .ok (st', _) => st'
    | .error _ => pd_publish_iter st name data n

/-- Iterated send_md_request for one sender name with a fixed payload. -/
def md_send_iter (st : AdapterState) (name : String) (data : Bytes) :
    Nat → AdapterState
  | 0 => st
  | n + 1 =>
    match send_md_request (md_send_iter st name data n) name data with
    | .ok (st', _) => st'
    | .error _ => md_send_iter st name data n

/-- The transport operations a client can invoke on the loopback adapter. -/
inductive AdapterOp
  | registerPdPublisher (config : PdPublisherConfig)
  | registerPdSubscriber (config : PdSubscriberConfig) (hasHandler : Bool)
  | publishPd (name : String) (data : Bytes)
  | registerMdSender (config : MdSenderConfig) (hasReplyHandler : Bool)
  | sendMdRequest (name : String) (data : Bytes)
  | registerMdListener (config : MdListenerConfig) (hasHandler : Bool)
  | sendMdReply (listenerName : String) (request : MdMessage) (data : Bytes)
  | shutdownOp
deriving DecidableEq

/-- The state transition of one adapter operation; a thrown exception leaves
the state unchanged, since every throwing path throws before mutating. -/
def applyOp (st : AdapterState) : AdapterOp → AdapterState
  | .registerPdPublisher config => register_pd_publisher st config
  | .registerPdSubscriber config h => register_pd_subscriber st config h
  | .publishPd name data =>
    match publish_pd st name data with
    | .ok (st', _) => st'
    | .error _ => st
  | .registerMdSender config h => register_md_sender st config h
  | .sendMdRequest name data =>
    match send_md_request st name data with
    | .ok (st', _) => st'
    | .error _ => st
  | .registerMdListener config h => register_md_listener st config h
  | .sendMdReply listenerName request data =>
    (send_md_reply st listenerName request data).1
  | .shutdownOp => shutdown st

/-- Run a sequence of adapter operations from a state. -/
def runOps (st : AdapterState) : List AdapterOp → AdapterState
  | [] => st
  | op :: rest => runOps (applyOp st op) rest

/-- The number of reply deliveries carrying a given session id in an event
list. -/
def replyCountFor (s : MdSessionId) (events : List MdEvent) : Nat :=
  (events.filter
    (fun e => match e with
              | .toSenderReply _ m => m.sessionId = s
              | .toListener _ _ => false)).length

/-- A character accepted by the hex_value digit conversion. -/
def is_hex_digit (c : Char) : Bool :=
  ('0' ≤ c ∧ c ≤ '9') ∨ ('a' ≤ c ∧ c ≤ 'f') ∨ ('A' ≤ c ∧ c ≤ 'F')

/-- The whitespace-stripped form of a hex payload string. -/
def strip_whitespace (s : String) : String :=
  String.mk (s.data.filter (fun c => !is_space_char c))

theorem hex_value_ok_of_digit {c : Char} (h : is_hex_digit c = true) :
    ∃ n, hex_value c = Except.ok n := by
  have h' : ('0' ≤ c ∧ c ≤ '9') ∨ ('a' ≤ c ∧ c ≤ 'f') ∨ ('A' ≤ c ∧ c ≤ 'F') := by
    simpa [is_hex_digit] using h
  unfold hex_value
  by_cases h1 : ('0' ≤ c ∧ c ≤ '9')
  · simp [h1]
  · by_cases h2 : ('a' ≤ c ∧ c ≤ 'f')
    · simp [h1, h2]
    · by_cases h3 : ('A' ≤ c ∧ c ≤ 'F')
      · simp [h1, h2, h3]
      · exact absurd h' (by tauto)

theorem hex_value_error_of_not_digit {c : Char} (h : is_hex_digit c = false) :
    ∃ m, hex_value c = Except.error m := by
  have h' : ¬('0' ≤ c ∧ c ≤ '9') ∧ ¬('a' ≤ c ∧ c ≤ 'f') ∧ ¬('A' ≤ c ∧ c ≤ 'F') := by
    simpa [is_hex_digit, not_or] using h
  unfold hex_value
  simp [h'.1, h'.2.1, h'.2.2]

theorem digit_not_space {c : Char} (h : is_hex_digit c = true) :
    is_space_char c = false := by
  have h' : ('0' ≤ c ∧ c ≤ '9') ∨ ('a' ≤ c ∧ c ≤ 'f') ∨ ('A' ≤ c ∧ c ≤ 'F') := by
    simpa [is_hex_digit] using h
  by_contra hcon
  have hs : is_space_char c = true := by
    cases hv : is_space_char c
    · exact absurd hv hcon
    · rfl
  have hs' : c = ' ' ∨ c = '\t' ∨ c = '\n' ∨ c = '\x0b' ∨ c = '\x0c' ∨ c = '\r' := by
    simpa [is_space_char, or_assoc] using hs
  rcases hs' with rfl | rfl | rfl | rfl | rfl | rfl <;>
    rcases h' with ⟨a, b⟩ | ⟨a, b⟩ | ⟨a, b⟩ <;> exact absurd (And.intro a b) (by decide)

theorem hex_pairs_ok_of_digits :
    ∀ l : List Char, (∀ c ∈ l, is_hex_digit c = true) → l.length % 2 = 0 →
      ∃ bs, hex_pairs l = Except.ok bs
  | [], _, _ => ⟨[], rfl⟩
  | [c], h, hlen => by simp at hlen
  | c1 :: c2 :: rest, h, hlen => by
    obtain ⟨n1, h1⟩ := hex_value_ok_of_digit (h c1 (by simp))
    obtain ⟨n2, h2⟩ := hex_value_ok_of_digit (h c2 (by simp))
    obtain ⟨bs, hrest⟩ := hex_pairs_ok_of_digits rest
      (fun c hc => h c (by simp [hc]))
      (by simp only [List.length_cons] at hlen; omega)
    exact ⟨(n1 * 16 + n2) :: bs, by simp [hex_pairs, h1, h2, hrest]⟩

theorem hex_pairs_error_of_bad :
    ∀ l : List Char, (∃ c ∈ l, is_hex_digit c = false) →
      ∃ m, hex_pairs l = Except.error m
  | [], h => by simp at h
  | [c], _ => ⟨"Hex payload must contain an even number of characters", rfl⟩
  | c1 :: c2 :: rest, h => by
    by_cases hc1 : is_hex_digit c1
    · obtain ⟨n1, h1⟩ := hex_value_ok_of_digit hc1
      by_cases hc2 : is_hex_digit c2
      · obtain ⟨n2, h2⟩ := hex_value_ok_of_digit hc2
        have hrest : ∃ c ∈ rest, is_hex_digit c = false := by
          rcases h with ⟨c, hc, hbad⟩
          rcases List.mem_cons.mp hc with rfl | hc'
          · exact absurd hbad (by simp [hc1])
          rcases List.mem_cons.mp hc' with rfl | hc''
          · exact absurd hbad (by simp [hc2])
          · exact ⟨c, hc'', hbad⟩
        obtain ⟨m, hm⟩ := hex_pairs_error_of_bad rest hrest
        exact ⟨m, by simp [hex_pairs, h1, h2, hm]⟩
      · obtain ⟨m, h2⟩ := hex_value_error_of_not_digit (by simpa using hc2)
        exact ⟨m, by simp [hex_pairs, h1, h2]⟩
    · obtain ⟨m, h1⟩ := hex_value_error_of_not_digit (by simpa using hc1)
      exact ⟨m, by simp [hex_pairs, h1]⟩

theorem strip_whitespace_filter (value : String) :
    (strip_whitespace value).data = value.data.filter (fun c => !is_space_char c) :=
  rfl

theorem filter_not_space_eq_filter_digit {l : List Char}
    (h : ∀ c ∈ l, is_hex_digit c = true ∨ is_space_char c = true) :
    l.filter (fun c => !is_space_char c) = l.filter (fun c => is_hex_digit c) := by
  induction l with
  | nil => rfl
  | cons c rest ih =>
    have hc := h c (by simp)
    have htail := ih (fun c hc => h c (by simp [hc]))
    rcases hc with hd | hs
    · simp [List.filter_cons, hd, digit_not_space hd, htail]
    · have hnd : is_hex_digit c = false := by
        by_contra hcon
        simp only [Bool.not_eq_false] at hcon
        exact absurd hs (by simp [digit_not_space hcon])
      simp [List.filter_cons, hs, hnd, htail]

/-- C6: for a Hex payload spec whose value is hex digits with interleaved
whitespace and an even digit count, load_payload succeeds, ignores the
whitespace and returns the bytes of the whitespace-stripped string; with an
odd digit count, or with any character that is neither a hex digit nor
whitespace, load_payload fails. -/
theorem C6_hex_whitespace_resolution (fs : String → Option Bytes) (value : String) :
    ((∀ c ∈ value.data, is_hex_digit c = true ∨ is_space_char c = true) →
      (value.data.filter (fun c => is_hex_digit c)).length % 2 = 0 →
      ∃ bs, load_payload fs { format := PayloadFormat.Hex, value := value } = Except.ok bs ∧
        load_payload fs { format := PayloadFormat.Hex, value := strip_whitespace value } =
          Except.ok bs) ∧
    ((∀ c ∈ value.data, is_hex_digit c = true ∨ is_space_char c = true) →
      (value.data.filter (fun c => is_hex_digit c)).length % 2 = 1 →
      ∃ m, load_payload fs { format := PayloadFormat.Hex, value := value } = Except.error m) ∧
    ((∃ c ∈ value.data, is_hex_digit c = false ∧ is_space_char c = false) →
      ∃ m, load_payload fs { format := PayloadFormat.Hex, value := value } = Except.error m) := by
  have hload : ∀ v : String,
      load_payload fs { format := PayloadFormat.Hex, value := v } = from_hex v := fun _ => rfl
  refine ⟨?_, ?_, ?_⟩
  · intro hchars hlen
    have hfil := filter_not_space_eq_filter_digit hchars
    have hdig : ∀ c ∈ value.data.filter (fun c => !is_space_char c), is_hex_digit c = true := by
      intro c hc
      rw [hfil] at hc
      exact (List.mem_filter.mp hc).2
    have hlen' : (value.data.filter (fun c => !is_space_char c)).length % 2 = 0 := by
      rw [hfil]; exact hlen
    obtain ⟨bs, hbs⟩ := hex_pairs_ok_of_digits _ hdig hlen'
    refine ⟨bs, ?_, ?_⟩
    · rw [hload]
      unfold from_hex
      simp [hlen', hbs]
    · rw [hload]
      unfold from_hex
      have hstrip : (strip_whitespace value).data.filter (fun c => !is_space_char c) =
          value.data.filter (fun c => !is_space_char c) := by
        rw [strip_whitespace_filter]
        exact List.filter_eq_self.mpr (fun c hc => (List.mem_filter.mp hc).2)
      simp only [hstrip]
      simp [hlen', hbs]
  · intro hchars hlen
    have hfil := filter_not_space_eq_filter_digit hchars
    have hlen' : (value.data.filter (fun c => !is_space_char c)).length % 2 = 1 := by
      rw [hfil]; exact hlen
    refine ⟨"Hex payload must contain an even number of characters", ?_⟩
    rw [hload]
    unfold from_hex
    simp [hlen']
  · intro hbad
    obtain ⟨c, hc, hnd, hns⟩ := hbad
    rw [hload]
    unfold from_hex
    by_cases hlen : (value.data.filter (fun c => !is_space_char c)).length % 2 = 0
    · have hmem : c ∈ value.data.filter (fun c => !is_space_char c) :=
        List.mem_filter.mpr ⟨hc, by simp [hns]⟩
      obtain ⟨m, hm⟩ := hex_pairs_error_of_bad _ ⟨c, hmem, hnd⟩
      exact ⟨m, by simp [hlen, hm]⟩
    · exact ⟨"Hex payload must contain an even number of characters", by simp [hlen]⟩

/-- C8: for either worker, when payload resolution fails, update_payload
returns false together with the resolution's error text and leaves both the
active payload bytes and the stored payload config untouched; when it
succeeds, both are replaced by the new bytes and the new spec. -/
theorem C8_update_payload_atomicity (fs : String → Option Bytes)
    (st : WorkerPayloadState) (format : PayloadFormat) (value : String)
    (err0 : String) :
    (∀ msg, load_payload fs { format := format, value := value } = Except.error msg →
      PdPublisherWorker.update_payload fs st format value err0 = (false, st, msg) ∧
      MdSenderWorker.update_payload fs st format value err0 = (false, st, msg)) ∧
    (∀ data, load_payload fs { format := format, value := value } = Except.ok data →
      PdPublisherWorker.update_payload fs st format value err0 =
        (true, { payload := data,
                 configPayload := { format := format, value := value } }, err0) ∧
      MdSenderWorker.update_payload fs st format value err0 =
        (true, { payload := data,
                 configPayload := { format := format, value := value } }, err0)) := by
  constructor
  · intro msg hmsg
    constructor
    · simp [PdPublisherWorker.update_payload, hmsg]
    · simp [MdSenderWorker.update_payload, hmsg]
  · intro data hdata
    constructor
    · simp [PdPublisherWorker.update_payload, hdata]
    · simp [MdSenderWorker.update_payload, hdata]

/-- Witness for C8 at the invalid hex value "0G" and at the valid value
"0A", from the worker state holding payload bytes 255 for hex "ff". -/
theorem C8_update_payload_atomicity_witness :
    (load_payload (fun _ => none) { format := PayloadFormat.Hex, value := "0G" } =
      Except.error "Invalid hex character: G" ∧
     PdPublisherWorker.update_payload (fun _ => none)
        { payload := [255], configPayload := { format := PayloadFormat.Hex, value := "ff" } }
        PayloadFormat.Hex "0G" "" =
      (false, { payload := [255],
                configPayload := { format := PayloadFormat.Hex, value := "ff" } },
       "Invalid hex character: G")) ∧
    (load_payload (fun _ => none) { format := PayloadFormat.Hex, value := "0A" } =
      Except.ok [10] ∧
     MdSenderWorker.update_payload (fun _ => none)
        { payload := [255], configPayload := { format := PayloadFormat.Hex, value := "ff" } }
        PayloadFormat.Hex "0A" "" =
      (true, { payload := [10],
               configPayload := { format := PayloadFormat.Hex, value := "0A" } }, "")) :=
  ⟨⟨rfl,
    ((C8_update_payload_atomicity (fun _ => none)
      { payload := [255], configPayload := { format := PayloadFormat.Hex, value := "ff" } }
      PayloadFormat.Hex "0G" "").1 "Invalid hex character: G" rfl).1⟩,
   ⟨rfl,
    ((C8_update_payload_atomicity (fun _ => none)
      { payload := [255], configPayload := { format := PayloadFormat.Hex, value := "ff" } }
      PayloadFormat.Hex "0A" "").2 [10] rfl).2⟩⟩

theorem adapter_error_state_stopped : adapter_error_state "Stopped" = false := by
  decide

/-- After one stop the lifecycle flags are settled: not running, cleaned
up. -/
theorem stop_flags (s : SimulatorState) :
    (Simulator.stop s).running = false ∧ (Simulator.stop s).cleanedUp = true := by
  obtain ⟨srun, scu, spw, smw, sej, sad, sm⟩ := s
  by_cases h1 : srun <;> by_cases h2 : scu <;>
    by_cases h3 : adapter_error_state sm.adapterState <;>
      simp [Simulator.stop, RuntimeMetrics.set_adapter_status,
            RuntimeMetrics.set_simulator_running, h1, h2, h3]

/-- C7: Simulator stop is idempotent and safe whatever the lifecycle state:
it is a total transition (never an error), a second consecutive stop produces
exactly the state of a single stop, a stop always leaves the running flag
cleared and the cleaned-up flag set, and any stop that still had cleanup to
do leaves the worker vectors cleared and the poll thread joined. -/
theorem C7_stop_idempotent (s : SimulatorState) :
    Simulator.stop (Simulator.stop s) = Simulator.stop s ∧
    (Simulator.stop s).running = false ∧
    (Simulator.stop s).cleanedUp = true ∧
    ((s.running = true ∨ s.cleanedUp = false) →
      (Simulator.stop s).pdWorkers = [] ∧ (Simulator.stop s).mdWorkers = [] ∧
      (Simulator.stop s).eventThreadJoinable = false) := by
  obtain ⟨srun, scu, spw, smw, sej, sad, sm⟩ := s
  obtain ⟨msr, mai, mas, mm1, mm2, mm3, mm4⟩ := sm
  by_cases h1 : srun <;> by_cases h2 : scu <;>
    by_cases h3 : adapter_error_state mas <;>
      simp [Simulator.stop, RuntimeMetrics.set_adapter_status,
            RuntimeMetrics.set_simulator_running, h1, h2, h3,
            adapter_error_state_stopped]

/-- Witness for C7 at a freshly constructed simulator state (stop before
run). -/
theorem C7_stop_idempotent_witness :
    ((false = true ∨ false = false)) ∧
    (Simulator.stop (Simulator.stop
        { running := false, cleanedUp := false, pdWorkers := [], mdWorkers := [],
          eventThreadJoinable := false, adapter := initialAdapterState,
          metrics := { simulatorRunning := false, adapterInitialized := false,
                       adapterState := "Idle", pdPublishers := [], pdSubscribers := [],
                       mdSenders := [], mdListeners := [] } }) =
      Simulator.stop
        { running := false, cleanedUp := false, pdWorkers := [], mdWorkers := [],
          eventThreadJoinable := false, adapter := initialAdapterState,
          metrics := { simulatorRunning := false, adapterInitialized := false,
                       adapterState := "Idle", pdPublishers := [], pdSubscribers := [],
                       mdSenders := [], mdListeners := [] } }) :=
  ⟨Or.inr rfl,
   (C7_stop_idempotent
      { running := false, cleanedUp := false, pdWorkers := [], mdWorkers := [],
        eventThreadJoinable := false, adapter := initialAdapterState,
        metrics := { simulatorRunning := false, adapterInitialized := false,
                     adapterState := "Idle", pdPublishers := [], pdSubscribers := [],
                     mdSenders := [], mdListeners := [] } }).1⟩

/-- C9: a completed stop leaves the metrics adapter state at Stopped and the
simulator-running flag false, except that an adapter-state string already
recording an error (a failed initialization or a running-phase error) is
preserved verbatim; no per-endpoint counter map is modified by stop. -/
theorem C9_stop_metrics (s : SimulatorState) :
    (adapter_error_state s.metrics.adapterState = false →
      (Simulator.stop s).metrics.adapterState = "Stopped") ∧
    (adapter_error_state s.metrics.adapterState = true →
      (Simulator.stop s).metrics.adapterState = s.metrics.adapterState) ∧
    (Simulator.stop s).metrics.simulatorRunning = false ∧
    (Simulator.stop s).metrics.pdPublishers = s.metrics.pdPublishers ∧
    (Simulator.stop s).metrics.pdSubscribers = s.metrics.pdSubscribers ∧
    (Simulator.stop s).metrics.mdSenders = s.metrics.mdSenders ∧
    (Simulator.stop s).metrics.mdListeners = s.metrics.mdListeners := by
  obtain ⟨srun, scu, spw, smw, sej, sad, sm⟩ := s
  obtain ⟨msr, mai, mas, mm1, mm2, mm3, mm4⟩ := sm
  by_cases h1 : srun <;> by_cases h2 : scu <;>
    by_cases h3 : adapter_error_state mas <;>
      simp [Simulator.stop, RuntimeMetrics.set_adapter_status,
            RuntimeMetrics.set_simulator_running, h1, h2, h3]

/-- Witness for C9 at a state whose adapter state records an initialization
failure, which stop preserves. -/
theorem C9_stop_metrics_witness :
    adapter_error_state "Initialization failed: boom" = true ∧
    (Simulator.stop
        { running := true, cleanedUp := false, pdWorkers := [true], mdWorkers := [],
          eventThreadJoinable := true, adapter := initialAdapterState,
          metrics := { simulatorRunning := false, adapterInitialized := false,
                       adapterState := "Initialization failed: boom",
                       pdPublishers := [("p", { name := "p", packetsSent := 3 })],
                       pdSubscribers := [], mdSenders := [],
                       mdListeners := [] } }).metrics.adapterState =
      "Initialization failed: boom" :=
  ⟨by decide,
   ((C9_stop_metrics
      { running := true, cleanedUp := false, pdWorkers := [true], mdWorkers := [],
        eventThreadJoinable := true, adapter := initialAdapterState,
        metrics := { simulatorRunning := false, adapterInitialized := false,
                     adapterState := "Initialization failed: boom",
                     pdPublishers := [("p", { name := "p", packetsSent := 3 })],
                     pdSubscribers := [], mdSenders := [],
                     mdListeners := [] } }).2.1) (by decide)⟩

theorem assoc_find_cons {α β : Type} [DecidableEq α] (p : α × β)
    (rest : List (α × β)) (k : α) :
    assoc_find (p :: rest) k = if p.1 = k then some p.2 else assoc_find rest k :=
  rfl

theorem assoc_find_filter_ne {α β : Type} [DecidableEq α]
    (m : List (α × β)) (k k' : α) (h : k' ≠ k) :
    assoc_find (m.filter (fun p => p.1 ≠ k)) k' = assoc_find m k' := by
  induction m with
  | nil => rfl
  | cons p rest ih =>
    rw [List.filter_cons]
    by_cases hp : p.1 = k
    · rw [if_neg (by simp [hp]), ih, assoc_find_cons,
        if_neg (by rw [hp]; exact fun he => h he.symm)]
    · rw [if_pos (by simp [hp]), assoc_find_cons, assoc_find_cons, ih]

theorem assoc_find_set_eq {α β : Type} [DecidableEq α]
    (m : List (α × β)) (k : α) (v : β) :
    assoc_find (assoc_set m k v) k = some v := by
  unfold assoc_set
  rw [assoc_find_cons, if_pos rfl]

theorem assoc_find_set_ne {α β : Type} [DecidableEq α]
    (m : List (α × β)) (k k' : α) (v : β) (h : k' ≠ k) :
    assoc_find (assoc_set m k v) k' = assoc_find m k' := by
  unfold assoc_set
  rw [assoc_find_cons, if_neg (fun he => h he.symm), assoc_find_filter_ne m k k' h]

theorem assoc_find_erase_eq {α β : Type} [DecidableEq α]
    (m : List (α × β)) (k : α) :
    assoc_find (assoc_erase m k) k = none := by
  unfold assoc_erase
  induction m with
  | nil => rfl
  | cons p rest ih =>
    rw [List.filter_cons]
    by_cases hp : p.1 = k
    · rw [if_neg (by simp [hp])]
      exact ih
    · rw [if_pos (by simp [hp]), assoc_find_cons, if_neg hp]
      exact ih

/-- The PD match predicate as the specification words it: the ComId must
agree unless the subscriber disabled ComId filtering or configured ComId
zero; the subscriber's source IP must equal the publisher's destination IP
and the subscriber's destination IP the publisher's source IP whenever both
sides of the comparison are non-empty. -/
def spec_pd_match (subscriber : PdSubscriberConfig) (publisher : PdPublisherConfig) :
    Bool :=
  (if subscriber.enableComIdFiltering ∧ subscriber.comId ≠ 0 then
    subscriber.comId = publisher.comId else true) &&
  (if subscriber.sourceIp ≠ "" ∧ publisher.destIp ≠ "" then
    subscriber.sourceIp = publisher.destIp else true) &&
  (if subscriber.destIp ≠ "" ∧ publisher.sourceIp ≠ "" then
    subscriber.destIp = publisher.sourceIp else true)

/-- The match predicate implemented by the loopback transport coincides with
the specification's reading of it. -/
theorem matches_pd_subscription_spec (s : PdSubscriberConfig)
    (p : PdPublisherConfig) :
    matches_pd_subscription s p = spec_pd_match s p := by
  unfold matches_pd_subscription spec_pd_match
  split_ifs <;> simp_all

/-- The deliveries the specification prescribes for one publish: walk the
subscriber vector in registration order, delivering the single message to
each subscriber matching the spec predicate, tagged with the subscriber's
registration index. -/
def spec_pd_deliveries (publisher : PdPublisherConfig) (message : PdMessage) :
    List PdSubscriberState → Nat → List (Nat × PdMessage)
  | [], _ => []
  | s :: rest, i =>
    if spec_pd_match s.config publisher then
      (i, message) :: spec_pd_deliveries publisher message rest (i + 1)
    else
      spec_pd_deliveries publisher message rest (i + 1)

theorem spec_pd_deliveries_fst_ge (publisher : PdPublisherConfig)
    (message : PdMessage) :
    ∀ (l : List PdSubscriberState) (i : Nat),
      ∀ e ∈ spec_pd_deliveries publisher message l i, i ≤ e.1
  | [], _, e, he => by simp [spec_pd_deliveries] at he
  | s :: rest, i, e, he => by
    unfold spec_pd_deliveries at he
    split at he
    · rcases List.mem_cons.mp he with rfl | he'
      · exact Nat.le_refl i
      · exact Nat.le_of_succ_le (spec_pd_deliveries_fst_ge publisher message rest (i + 1) e he')
    · exact Nat.le_of_succ_le (spec_pd_deliveries_fst_ge publisher message rest (i + 1) e he)

theorem spec_pd_deliveries_snd (publisher : PdPublisherConfig)
    (message : PdMessage) :
    ∀ (l : List PdSubscriberState) (i : Nat),
      ∀ e ∈ spec_pd_deliveries publisher message l i, e.2 = message
  | [], _, e, he => by simp [spec_pd_deliveries] at he
  | s :: rest, i, e, he => by
    unfold spec_pd_deliveries at he
    split at he
    · rcases List.mem_cons.mp he with rfl | he'
      · rfl
      · exact spec_pd_deliveries_snd publisher message rest (i + 1) e he'
    · exact spec_pd_deliveries_snd publisher message rest (i + 1) e he

theorem spec_pd_deliveries_fst_nodup (publisher : PdPublisherConfig)
    (message : PdMessage) :
    ∀ (l : List PdSubscriberState) (i : Nat),
      ((spec_pd_deliveries publisher message l i).map Prod.fst).Nodup
  | [], _ => by simp [spec_pd_deliveries]
  | s :: rest, i => by
    unfold spec_pd_deliveries
    split
    · refine List.Nodup.cons ?_ (spec_pd_deliveries_fst_nodup publisher message rest (i + 1))
      intro hmem
      obtain ⟨e, he, hfst⟩ := List.mem_map.mp hmem
      have := spec_pd_deliveries_fst_ge publisher message rest (i + 1) e he
      omega
    · exact spec_pd_deliveries_fst_nodup publisher message rest (i + 1)

theorem spec_pd_deliveries_mem (publisher : PdPublisherConfig)
    (message : PdMessage) :
    ∀ (l : List PdSubscriberState) (i j : Nat) (s : PdSubscriberState),
      l.get? j = some s →
      ((∃ m, (i + j, m) ∈ spec_pd_deliveries publisher message l i) ↔
        spec_pd_match s.config publisher = true)
  | [], _, j, s, hget => by simp at hget
  | s0 :: rest, i, 0, s, hget => by
    simp only [List.get?_cons_zero, Option.some.injEq] at hget
    subst hget
    unfold spec_pd_deliveries
    constructor
    · intro ⟨m, hm⟩
      split at hm
      · assumption
      · have hge := spec_pd_deliveries_fst_ge publisher message rest (i + 1) _ hm
        exact absurd hge (by omega)
    · intro hmatch
      rw [if_pos hmatch]
      exact ⟨message, by simp⟩
  | s0 :: rest, i, j + 1, s, hget => by
    simp only [List.get?_cons_succ] at hget
    have ih := spec_pd_deliveries_mem publisher message rest (i + 1) j s hget
    have harith : i + (j + 1) = (i + 1) + j := by omega
    unfold spec_pd_deliveries
    split
    · rw [harith]
      rw [← ih]
      constructor
      · intro ⟨m, hm⟩
        rcases List.mem_cons.mp hm with heq | hmem
        · exfalso
          have : i + 1 + j = i := by
            have := congrArg Prod.fst heq
            simpa using this
          omega
        · exact ⟨m, hmem⟩
      · intro ⟨m, hm⟩
        exact ⟨m, List.mem_cons_of_mem _ hm⟩
    · rw [harith]
      exact ih

theorem publish_events_spec (pub : PdPublisherConfig) (msg : PdMessage) :
    ∀ (l : List PdSubscriberState) (n : Nat),
      (∀ s ∈ l, s.hasHandler = true) →
      ((l.enumFrom n).filter
          (fun p => matches_pd_subscription p.2.config pub)).filterMap
        (fun p => if p.2.hasHandler then some (p.1, msg) else none) =
      spec_pd_deliveries pub msg l n
  | [], _, _ => rfl
  | s :: rest, n, hh => by
    have hs : s.hasHandler = true := hh s (by simp)
    have ih := publish_events_spec pub msg rest (n + 1)
      (fun x hx => hh x (by simp [hx]))
    have hcons : (s :: rest).enumFrom n = (n, s) :: rest.enumFrom (n + 1) := rfl
    rw [hcons, List.filter_cons]
    unfold spec_pd_deliveries
    by_cases hm : matches_pd_subscription s.config pub = true
    · rw [if_pos (by simpa using hm), List.filterMap_cons,
        ← matches_pd_subscription_spec, if_pos hm]
      simp only [hs, if_pos]
      rw [ih]
    · rw [if_neg (by simpa using hm), ← matches_pd_subscription_spec,
        if_neg (by simpa using hm), ih]

theorem mem_publish_filterMap {L : List (Nat × PdSubscriberState)}
    {msg : PdMessage} {e : Nat × PdMessage}
    (he : e ∈ L.filterMap (fun p => if p.2.hasHandler then some (p.1, msg) else none)) :
    e.2 = msg := by
  obtain ⟨p, _, hf⟩ := List.mem_filterMap.mp he
  split at hf
  · injection hf with h
    subst h
    rfl
  · cases hf

/-- The full evaluation of a successful publish_pd: the publisher's counter
is bumped and every matching subscriber with a handler receives the single
message built from the publisher's state. -/
theorem publish_pd_eq (st : AdapterState) (name : String) (data : Bytes)
    (pub : PdPublisherState)
    (hreg : assoc_find st.pdPublishers name = some pub) :
    publish_pd st name data = Except.ok
      ({ st with pdPublishers := assoc_set st.pdPublishers name (PdPublisherState.mk pub.config ((pub.sequenceCounter + 1) % 2 ^ 64)) },
       (st.pdSubscribers.enum.filter
          (fun p => matches_pd_subscription p.2.config pub.config)).filterMap
        (fun p => if p.2.hasHandler then
            some (p.1,
              { endpoint := fallback_endpoint name pub.config.sourceIp,
                comId := pub.config.comId, payload := data,
                sequenceCounter := (pub.sequenceCounter + 1) % 2 ^ 64 })
          else none)) := by
  simp [publish_pd, hreg]

/-- C1: a publish through a registered publisher delivers, synchronously and
in registration order, exactly one message carrying the publisher's ComId
and the published bytes to exactly those registered subscribers (all holding
handlers) that satisfy the specified match predicate, and nothing to any
other subscriber. -/
theorem C1_publish_pd_delivery (st : AdapterState) (publisherName : String)
    (data : Bytes) (pub : PdPublisherState)
    (hreg : assoc_find st.pdPublishers publisherName = some pub)
    (hh : ∀ s ∈ st.pdSubscribers, s.hasHandler = true) :
    ∃ st' events,
      publish_pd st publisherName data = Except.ok (st', events) ∧
      events = spec_pd_deliveries pub.config
        { endpoint := fallback_endpoint publisherName pub.config.sourceIp,
          comId := pub.config.comId, payload := data,
          sequenceCounter := (pub.sequenceCounter + 1) % 2 ^ 64 } st.pdSubscribers 0 ∧
      (∀ e ∈ events, e.2.comId = pub.config.comId ∧ e.2.payload = data) ∧
      (events.map Prod.fst).Nodup ∧
      (∀ i s, st.pdSubscribers.get? i = some s →
        ((∃ m, (i, m) ∈ events) ↔ spec_pd_match s.config pub.config = true)) := by
  have hevents : (st.pdSubscribers.enum.filter
      (fun p => matches_pd_subscription p.2.config pub.config)).filterMap
        (fun p => if p.2.hasHandler then
            some (p.1,
              { endpoint := fallback_endpoint publisherName pub.config.sourceIp,
                comId := pub.config.comId, payload := data,
                sequenceCounter := (pub.sequenceCounter + 1) % 2 ^ 64 })
          else none) =
      spec_pd_deliveries pub.config
        { endpoint := fallback_endpoint publisherName pub.config.sourceIp,
          comId := pub.config.comId, payload := data,
          sequenceCounter := (pub.sequenceCounter + 1) % 2 ^ 64 } st.pdSubscribers 0 :=
    publish_events_spec pub.config
      { endpoint := fallback_endpoint publisherName pub.config.sourceIp,
        comId := pub.config.comId, payload := data,
        sequenceCounter := (pub.sequenceCounter + 1) % 2 ^ 64 } st.pdSubscribers 0 hh
  refine ⟨{ st with pdPublishers := assoc_set st.pdPublishers publisherName (PdPublisherState.mk pub.config ((pub.sequenceCounter + 1) % 2 ^ 64)) },
    spec_pd_deliveries pub.config
      { endpoint := fallback_endpoint publisherName pub.config.sourceIp,
        comId := pub.config.comId, payload := data,
        sequenceCounter := (pub.sequenceCounter + 1) % 2 ^ 64 } st.pdSubscribers 0,
    ?_, rfl, ?_, ?_, ?_⟩
  · rw [publish_pd_eq st publisherName data pub hreg, hevents]
  · intro e he
    have hsnd := spec_pd_deliveries_snd _ _ _ _ e he
    rw [hsnd]
    exact ⟨rfl, rfl⟩
  · exact spec_pd_deliveries_fst_nodup _ _ _ _
  · intro i s hget
    simpa using spec_pd_deliveries_mem pub.config
      { endpoint := fallback_endpoint publisherName pub.config.sourceIp,
        comId := pub.config.comId, payload := data,
        sequenceCounter := (pub.sequenceCounter + 1) % 2 ^ 64 } st.pdSubscribers 0 i s hget

/-- A concrete publisher configuration for exercising PD delivery. -/
def c1_publisher : PdPublisherConfig :=
  { name := "p", comId := 7, datasetId := 0, etbTopoCount := 0, opTrnTopoCount := 0,
    sourceIp := "10.0.0.1", destIp := "239.0.0.1", cycleTimeMs := 100,
    redundancyGroup := 0, useSequenceCounter := false,
    payload := { format := PayloadFormat.Hex, value := "" } }

/-- A subscriber matching c1_publisher on ComId. -/
def c1_sub_match : PdSubscriberConfig :=
  { name := "s1", comId := 7, etbTopoCount := 0, opTrnTopoCount := 0,
    sourceIp := "", destIp := "", timeoutMs := 0, enableComIdFiltering := true }

/-- A subscriber filtering on a different ComId. -/
def c1_sub_other : PdSubscriberConfig :=
  { name := "s2", comId := 8, etbTopoCount := 0, opTrnTopoCount := 0,
    sourceIp := "", destIp := "", timeoutMs := 0, enableComIdFiltering := true }

/-- An adapter holding one publisher and one matching plus one non-matching
subscriber. -/
def c1_state : AdapterState :=
  register_pd_subscriber
    (register_pd_subscriber (register_pd_publisher initialAdapterState c1_publisher)
      c1_sub_match true)
    c1_sub_other true

/-- Witness for C1 at the concrete adapter c1_state. -/
theorem C1_publish_pd_delivery_witness :
    assoc_find c1_state.pdPublishers "p" = some (PdPublisherState.mk c1_publisher 0) ∧
    (∀ s ∈ c1_state.pdSubscribers, s.hasHandler = true) ∧
    (∃ st' events,
      publish_pd c1_state "p" [1, 2] = Except.ok (st', events) ∧
      events = spec_pd_deliveries c1_publisher
        { endpoint := fallback_endpoint "p" c1_publisher.sourceIp,
          comId := c1_publisher.comId, payload := [1, 2],
          sequenceCounter := (0 + 1) % 2 ^ 64 }
        c1_state.pdSubscribers 0 ∧
      (∀ e ∈ events, e.2.comId = c1_publisher.comId ∧ e.2.payload = [1, 2]) ∧
      (events.map Prod.fst).Nodup ∧
      (∀ i s, c1_state.pdSubscribers.get? i = some s →
        ((∃ m, (i, m) ∈ events) ↔ spec_pd_match s.config c1_publisher = true))) :=
  ⟨rfl, by decide,
   C1_publish_pd_delivery c1_state "p" [1, 2] (PdPublisherState.mk c1_publisher 0)
     rfl (by decide)⟩

theorem pd_publish_iter_props (st : AdapterState) (name : String) (data : Bytes)
    (cfg : PdPublisherConfig) (c : Nat)
    (hreg : assoc_find st.pdPublishers name = some (PdPublisherState.mk cfg c))
    (hc : c < 2 ^ 64) :
    ∀ n : Nat,
      assoc_find (pd_publish_iter st name data n).pdPublishers name =
        some (PdPublisherState.mk cfg ((c + n) % 2 ^ 64)) ∧
      (pd_publish_iter st name data n).pdSubscribers = st.pdSubscribers ∧
      (∀ k, k ≠ name → assoc_find (pd_publish_iter st name data n).pdPublishers k =
        assoc_find st.pdPublishers k)
  | 0 => ⟨by rw [Nat.add_zero, Nat.mod_eq_of_lt hc]; exact hreg, rfl, fun _ _ => rfl⟩
  | n + 1 => by
    obtain ⟨hfind, hsubs, hothers⟩ := pd_publish_iter_props st name data cfg c hreg hc n
    have heq := publish_pd_eq (pd_publish_iter st name data n) name data _ hfind
    refine ⟨?_, ?_, ?_⟩
    · show assoc_find (pd_publish_iter st name data (n + 1)).pdPublishers name = _
      unfold pd_publish_iter
      rw [heq]
      dsimp only
      rw [assoc_find_set_eq]
      rw [Nat.mod_add_mod, Nat.add_assoc]
    · show (pd_publish_iter st name data (n + 1)).pdSubscribers = _
      unfold pd_publish_iter
      rw [heq]
      dsimp only
      exact hsubs
    · intro k hk
      show assoc_find (pd_publish_iter st name data (n + 1)).pdPublishers k = _
      unfold pd_publish_iter
      rw [heq]
      show assoc_find (assoc_set _ _ _) k = _
      rw [assoc_find_set_ne _ _ _ _ hk]
      exact hothers k hk

/-- A second publisher, registered independently of c1_publisher. -/
def c5_publisher_b : PdPublisherConfig :=
  { name := "q", comId := 9, datasetId := 0, etbTopoCount := 0, opTrnTopoCount := 0,
    sourceIp := "10.0.0.2", destIp := "239.0.0.2", cycleTimeMs := 200,
    redundancyGroup := 0, useSequenceCounter := true,
    payload := { format := PayloadFormat.Hex, value := "" } }

/-- A subscriber receiving everything (ComId zero matches anything). -/
def c5_sub_all : PdSubscriberConfig :=
  { name := "sAll", comId := 0, etbTopoCount := 0, opTrnTopoCount := 0,
    sourceIp := "", destIp := "", timeoutMs := 0, enableComIdFiltering := true }

/-- An adapter holding two independent publishers and a catch-all
subscriber. -/
def c5_state : AdapterState :=
  register_pd_subscriber
    (register_pd_publisher (register_pd_publisher initialAdapterState c1_publisher)
      c5_publisher_b)
    c5_sub_all true

/-- C5 counterexample: the uint64 sequence counter wraps, so publish number
2^64 of the run starting at a freshly registered publisher delivers messages
carrying sequence counter 0 while publish number 2^64 - 1 carried
2^64 - 1 — the counters of N consecutive publishes are not 1..N and not
strictly increasing at N = 2^64. -/
theorem C5_counterexample :
    (∃ st' events,
      publish_pd (pd_publish_iter c5_state "p" [3] (2 ^ 64 - 1)) "p" [3] =
        Except.ok (st', events) ∧
      events ≠ [] ∧ (∀ e ∈ events, e.2.sequenceCounter = 0)) ∧
    (∃ st' events,
      publish_pd (pd_publish_iter c5_state "p" [3] (2 ^ 64 - 2)) "p" [3] =
        Except.ok (st', events) ∧
      (∀ e ∈ events, e.2.sequenceCounter = 2 ^ 64 - 1)) ∧
    (0 : Nat) < 2 ^ 64 - 1 := by
  have hreg : assoc_find c5_state.pdPublishers "p" =
      some (PdPublisherState.mk c1_publisher 0) := rfl
  have hprops := pd_publish_iter_props c5_state "p" [3] c1_publisher 0 hreg
    (by norm_num)
  refine ⟨?_, ?_, by norm_num⟩
  · obtain ⟨hfind, hsubs, -⟩ := hprops (2 ^ 64 - 1)
    refine ⟨_, _, publish_pd_eq _ "p" [3] _ hfind, ?_, ?_⟩
    · rw [hsubs]
      decide
    · intro e he
      have hsnd := mem_publish_filterMap he
      rw [hsnd]
      show ((0 + (2 ^ 64 - 1)) % 2 ^ 64 + 1) % 2 ^ 64 = 0
      norm_num
  · obtain ⟨hfind, -, -⟩ := hprops (2 ^ 64 - 2)
    refine ⟨_, _, publish_pd_eq _ "p" [3] _ hfind, ?_⟩
    intro e he
    have hsnd := mem_publish_filterMap he
    rw [hsnd]
    show ((0 + (2 ^ 64 - 2)) % 2 ^ 64 + 1) % 2 ^ 64 = 2 ^ 64 - 1
    norm_num

/-- C5 as amended: the sequence counter is a wrapping uint64, so for every
N below 2^64 the N-th successive publish from a freshly registered
publisher succeeds and every message it delivers carries counter N (hence N
consecutive publishes carry 1..N, strictly increasing, until the counter
wraps at publish 2^64); a second, independently registered publisher is
unaffected by those publishes: its counter stays zero and its own first
publish delivers messages carrying counter one. -/
theorem C5_amended_sequence_counters (st : AdapterState) (name name2 : String)
    (data data2 : Bytes) (cfg cfg2 : PdPublisherConfig)
    (h1 : assoc_find st.pdPublishers name = some (PdPublisherState.mk cfg 0))
    (h2 : assoc_find st.pdPublishers name2 = some (PdPublisherState.mk cfg2 0))
    (hne : name2 ≠ name) :
    (∀ n, n + 1 < 2 ^ 64 →
      ∃ st' events,
        publish_pd (pd_publish_iter st name data n) name data = Except.ok (st', events) ∧
        ∀ e ∈ events, e.2.sequenceCounter = n + 1) ∧
    (∀ n, assoc_find (pd_publish_iter st name data n).pdPublishers name2 =
      some (PdPublisherState.mk cfg2 0)) ∧
    (∀ n, ∃ st' events,
      publish_pd (pd_publish_iter st name data n) name2 data2 = Except.ok (st', events) ∧
      ∀ e ∈ events, e.2.sequenceCounter = 1) := by
  have bound : (0 : Nat) < 2 ^ 64 := by norm_num
  have hprops := pd_publish_iter_props st name data cfg 0 h1 bound
  refine ⟨?_, ?_, ?_⟩
  · intro n hn
    obtain ⟨hfind, -, -⟩ := hprops n
    refine ⟨_, _, publish_pd_eq _ name data _ hfind, ?_⟩
    intro e he
    have hsnd := mem_publish_filterMap he
    rw [hsnd]
    show ((0 + n) % 2 ^ 64 + 1) % 2 ^ 64 = n + 1
    omega
  · intro n
    obtain ⟨-, -, hothers⟩ := hprops n
    rw [hothers name2 hne]
    exact h2
  · intro n
    obtain ⟨-, -, hothers⟩ := hprops n
    have hfind2 : assoc_find (pd_publish_iter st name data n).pdPublishers name2 =
        some (PdPublisherState.mk cfg2 0) := by rw [hothers name2 hne]; exact h2
    refine ⟨_, _, publish_pd_eq _ name2 data2 _ hfind2, ?_⟩
    intro e he
    have hsnd := mem_publish_filterMap he
    rw [hsnd]
    show (0 + 1) % 2 ^ 64 = 1
    norm_num

/-- Witness for the amended C5 at the concrete adapter c5_state. -/
theorem C5_amended_sequence_counters_witness :
    assoc_find c5_state.pdPublishers "p" = some (PdPublisherState.mk c1_publisher 0) ∧
    assoc_find c5_state.pdPublishers "q" = some (PdPublisherState.mk c5_publisher_b 0) ∧
    ("q" : String) ≠ "p" ∧
    ((∀ n, n + 1 < 2 ^ 64 →
      ∃ st' events,
        publish_pd (pd_publish_iter c5_state "p" [3] n) "p" [3] = Except.ok (st', events) ∧
        ∀ e ∈ events, e.2.sequenceCounter = n + 1) ∧
    (∀ n, assoc_find (pd_publish_iter c5_state "p" [3] n).pdPublishers "q" =
      some (PdPublisherState.mk c5_publisher_b 0)) ∧
    (∀ n, ∃ st' events,
      publish_pd (pd_publish_iter c5_state "p" [3] n) "q" [4] = Except.ok (st', events) ∧
      ∀ e ∈ events, e.2.sequenceCounter = 1)) :=
  ⟨rfl, rfl, by decide,
   C5_amended_sequence_counters c5_state "p" "q" [3] [4] c1_publisher c5_publisher_b
     rfl rfl (by decide)⟩

theorem send_md_reply_none (st : AdapterState) (ln : String) (req : MdMessage)
    (d : Bytes) (h : assoc_find st.mdSessions req.sessionId = none) :
    send_md_reply st ln req d = (st, []) := by
  simp [send_md_reply, h]

theorem send_md_reply_found (st : AdapterState) (ln : String) (req : MdMessage)
    (d : Bytes) (sess : MdSessionState)
    (h : assoc_find st.mdSessions req.sessionId = some sess)
    (hh : sess.hasReplyHandler = true) :
    send_md_reply st ln req d =
      ({ st with mdSessions := assoc_erase st.mdSessions req.sessionId },
       [MdEvent.toSenderReply sess.senderName
         { endpoint := fallback_endpoint ln (reply_endpoint_config st ln).sourceIp,
           comId := req.comId, sessionId := req.sessionId, payload := d }]) := by
  simp [send_md_reply, h, hh]

theorem send_md_reply_found_nohandler (st : AdapterState) (ln : String)
    (req : MdMessage) (d : Bytes) (sess : MdSessionState)
    (h : assoc_find st.mdSessions req.sessionId = some sess)
    (hh : sess.hasReplyHandler = false) :
    send_md_reply st ln req d =
      ({ st with mdSessions := assoc_erase st.mdSessions req.sessionId }, []) := by
  simp [send_md_reply, h, hh]

theorem replyCountFor_append (s : MdSessionId) (a b : List MdEvent) :
    replyCountFor s (a ++ b) = replyCountFor s a + replyCountFor s b := by
  simp [replyCountFor, List.filter_append]

/-- C10: when send_md_reply finds the pending session, the delivered reply
carries the request's ComId (never the listener's configured reply ComId),
the request's session id, and exactly the passed payload; the listener-name
lookup influences only the endpoint string, so the same delivery happens
whatever the listener table holds — in particular when the name matches no
registered listener, in which case the endpoint falls back from a
value-initialized configuration. -/
theorem C10_reply_fields (st : AdapterState) (ln : String) (req : MdMessage)
    (d : Bytes) (sess : MdSessionState)
    (h : assoc_find st.mdSessions req.sessionId = some sess)
    (hh : sess.hasReplyHandler = true) :
    send_md_reply st ln req d =
      ({ st with mdSessions := assoc_erase st.mdSessions req.sessionId },
       [MdEvent.toSenderReply sess.senderName
         { endpoint := fallback_endpoint ln (reply_endpoint_config st ln).sourceIp,
           comId := req.comId, sessionId := req.sessionId, payload := d }]) ∧
    (∀ listeners2,
      (send_md_reply { st with mdListeners := listeners2 } ln req d).2 =
        [MdEvent.toSenderReply sess.senderName
          { endpoint := fallback_endpoint ln
              (reply_endpoint_config { st with mdListeners := listeners2 } ln).sourceIp,
            comId := req.comId, sessionId := req.sessionId, payload := d }]) ∧
    (st.mdListeners.find? (fun l => l.config.name = ln) = none →
      reply_endpoint_config st ln = defaultMdListenerConfig) := by
  refine ⟨send_md_reply_found st ln req d sess h hh, ?_, ?_⟩
  · intro listeners2
    rw [send_md_reply_found { st with mdListeners := listeners2 } ln req d sess h hh]
  · intro hnone
    simp [reply_endpoint_config, hnone]

/-- Discriminates reply deliveries (to a sender's reply handler) from
request deliveries (to a listener's handler). -/
def is_reply_event : MdEvent → Bool
  | .toSenderReply _ _ => true
  | .toListener _ _ => false

theorem filter_reply_of_listener_events (L : List MdListenerState)
    (msg : MdMessage) :
    ((L.filterMap (fun l => if l.hasHandler then
        some (MdEvent.toListener l.config.name msg) else none)).filter
      is_reply_event) = [] := by
  rw [List.filter_eq_nil_iff]
  intro e he
  obtain ⟨l, _, hf⟩ := List.mem_filterMap.mp he
  split at hf
  · injection hf with h
    subst h
    simp [is_reply_event]
  · cases hf

/-- The full evaluation of send_md_request for a registered sender that has
a reply handler and does not expect a reply: the request goes to every
matching listener, the synthetic empty reply is delivered to the sender's
own handler, and the pending session recorded under the fresh id is erased
again before the call returns. -/
theorem send_md_request_eq_noexpect (st : AdapterState) (name : String)
    (data : Bytes) (sender : MdSenderState)
    (h : assoc_find st.mdSenders name = some sender)
    (hexp : sender.config.expectReply = false)
    (hh : sender.hasReplyHandler = true) :
    send_md_request st name data = Except.ok
      ({ st with mdSessions := assoc_erase (assoc_set st.mdSessions (make_session_id st.nextSessionId) (MdSessionState.mk name true)) (make_session_id st.nextSessionId),
                 nextSessionId := (st.nextSessionId + 1) % 2 ^ 32 },
       (st.mdListeners.filter
          (fun l => matches_md_listener l.config sender.config)).filterMap
         (fun l => if l.hasHandler then
            some (MdEvent.toListener l.config.name
              { endpoint := fallback_endpoint name sender.config.sourceIp,
                comId := sender.config.comId, payload := data,
                sessionId := make_session_id st.nextSessionId })
          else none) ++
       [MdEvent.toSenderReply name
         { endpoint := if sender.config.destIp = "" then "stub-listener"
                       else sender.config.destIp,
           comId := if sender.config.replyComId = 0 then sender.config.comId
                    else sender.config.replyComId,
           payload := [], sessionId := make_session_id st.nextSessionId }]) := by
  simp [send_md_request, h, hexp, hh]

/-- C3: a send_md_request through a registered sender with a reply handler
and expectReply off delivers, within the same call, exactly one reply event
to that sender's own handler, carrying an empty payload and the request's
fresh session id; the pending session for that id is gone when the call
returns, so any later send_md_reply carrying that id is a silent no-op. -/
theorem C3_fire_and_forget (st : AdapterState) (name : String) (data : Bytes)
    (sender : MdSenderState)
    (h : assoc_find st.mdSenders name = some sender)
    (hexp : sender.config.expectReply = false)
    (hh : sender.hasReplyHandler = true) :
    ∃ st' events,
      send_md_request st name data = Except.ok (st', events) ∧
      events.filter is_reply_event =
        [MdEvent.toSenderReply name
          { endpoint := if sender.config.destIp = "" then "stub-listener"
                        else sender.config.destIp,
            comId := if sender.config.replyComId = 0 then sender.config.comId
                     else sender.config.replyComId,
            payload := [], sessionId := make_session_id st.nextSessionId }] ∧
      assoc_find st'.mdSessions (make_session_id st.nextSessionId) = none ∧
      (∀ ln req d, req.sessionId = make_session_id st.nextSessionId →
        send_md_reply st' ln req d = (st', [])) := by
  refine ⟨_, _, send_md_request_eq_noexpect st name data sender h hexp hh, ?_, ?_, ?_⟩
  · rw [List.filter_append, filter_reply_of_listener_events]
    simp [is_reply_event]
  · exact assoc_find_erase_eq _ _
  · intro ln req d hsid
    refine send_md_reply_none _ ln req d ?_
    rw [hsid]
    exact assoc_find_erase_eq _ _

/-- A fire-and-forget sender: no expected reply, but a registered reply
handler. -/
def c3_sender : MdSenderConfig :=
  { name := "f", comId := 11, replyComId := 0, sourceIp := "", destIp := "",
    cycleTimeMs := 0, replyTimeoutMs := 1000, expectReply := false,
    payload := { format := PayloadFormat.Hex, value := "" } }

/-- An adapter holding only the fire-and-forget sender. -/
def c3_state : AdapterState :=
  register_md_sender initialAdapterState c3_sender true

/-- Witness for C3 at the concrete adapter c3_state. -/
theorem C3_fire_and_forget_witness :
    assoc_find c3_state.mdSenders "f" = some (MdSenderState.mk c3_sender true) ∧
    (MdSenderState.mk c3_sender true).config.expectReply = false ∧
    (MdSenderState.mk c3_sender true).hasReplyHandler = true ∧
    (∃ st' events,
      send_md_request c3_state "f" [9] = Except.ok (st', events) ∧
      events.filter is_reply_event =
        [MdEvent.toSenderReply "f"
          { endpoint := if c3_sender.destIp = "" then "stub-listener"
                        else c3_sender.destIp,
            comId := if c3_sender.replyComId = 0 then c3_sender.comId
                     else c3_sender.replyComId,
            payload := [], sessionId := make_session_id 1 }] ∧
      assoc_find st'.mdSessions (make_session_id 1) = none ∧
      (∀ ln req d, req.sessionId = make_session_id 1 →
        send_md_reply st' ln req d = (st', []))) :=
  ⟨rfl, rfl, rfl,
   C3_fire_and_forget c3_state "f" [9] (MdSenderState.mk c3_sender true) rfl rfl rfl⟩

/-- A sender expecting a reply, used to produce a live pending session. -/
def c2_sender : MdSenderConfig :=
  { name := "m", comId := 5, replyComId := 0, sourceIp := "", destIp := "",
    cycleTimeMs := 0, replyTimeoutMs := 1000, expectReply := true,
    payload := { format := PayloadFormat.Hex, value := "" } }

/-- The request message carrying the pending session id of c2_state. -/
def c2_request : MdMessage :=
  { endpoint := "e", comId := 5, payload := [], sessionId := make_session_id 1 }

/-- A listener registered under a name send_md_reply will not be called
with, demonstrating that the listener lookup only affects the endpoint. -/
def c10_listener : MdListenerConfig :=
  { name := "lst", comId := 0, sourceIp := "5.6.7.8", destIp := "",
    autoReply := false, replyPayload := { format := PayloadFormat.Hex, value := "" } }

/-- An adapter with one registered listener and one pending session. -/
def c10_state : AdapterState :=
  applyOp
    (register_md_listener (register_md_sender initialAdapterState c2_sender true)
      c10_listener true)
    (AdapterOp.sendMdRequest "m" [2])

/-- Witness for C10 at the concrete adapter c10_state, replying under a name
that matches no registered listener. -/
theorem C10_reply_fields_witness :
    assoc_find c10_state.mdSessions c2_request.sessionId =
      some (MdSessionState.mk "m" true) ∧
    (MdSessionState.mk "m" true).hasReplyHandler = true ∧
    (send_md_reply c10_state "ghost" c2_request [8] =
      ({ c10_state with mdSessions := assoc_erase c10_state.mdSessions c2_request.sessionId },
       [MdEvent.toSenderReply "m"
         { endpoint := fallback_endpoint "ghost"
             (reply_endpoint_config c10_state "ghost").sourceIp,
           comId := c2_request.comId, sessionId := c2_request.sessionId,
           payload := [8] }]) ∧
     (∀ listeners2,
       (send_md_reply { c10_state with mdListeners := listeners2 } "ghost" c2_request [8]).2 =
         [MdEvent.toSenderReply "m"
           { endpoint := fallback_endpoint "ghost"
               (reply_endpoint_config { c10_state with mdListeners := listeners2 } "ghost").sourceIp,
             comId := c2_request.comId, sessionId := c2_request.sessionId,
             payload := [8] }]) ∧
     (c10_state.mdListeners.find? (fun l => l.config.name = "ghost") = none →
       reply_endpoint_config c10_state "ghost" = defaultMdListenerConfig)) :=
  ⟨rfl, rfl,
   C10_reply_fields c10_state "ghost" c2_request [8] (MdSessionState.mk "m" true)
     rfl rfl⟩

/-- Any send through a registered sender succeeds, leaves the sender and
listener tables untouched, and advances the wrapping 32-bit session
counter by one. -/
theorem send_md_request_shape (st : AdapterState) (name : String) (data : Bytes)
    (sender : MdSenderState)
    (h : assoc_find st.mdSenders name = some sender) :
    ∃ st' events, send_md_request st name data = Except.ok (st', events) ∧
      st'.mdSenders = st.mdSenders ∧ st'.mdListeners = st.mdListeners ∧
      st'.nextSessionId = (st.nextSessionId + 1) % 2 ^ 32 := by
  simp only [send_md_request, h]
  split
  · exact ⟨_, _, rfl, rfl, rfl, rfl⟩
  · exact ⟨_, _, rfl, rfl, rfl, rfl⟩

theorem md_send_iter_shape (st : AdapterState) (name : String) (data : Bytes)
    (sender : MdSenderState)
    (h : assoc_find st.mdSenders name = some sender)
    (h32 : st.nextSessionId < 2 ^ 32) :
    ∀ n, (md_send_iter st name data n).mdSenders = st.mdSenders ∧
         (md_send_iter st name data n).mdListeners = st.mdListeners ∧
         (md_send_iter st name data n).nextSessionId =
           (st.nextSessionId + n) % 2 ^ 32
  | 0 => ⟨rfl, rfl, by
      show st.nextSessionId = (st.nextSessionId + 0) % 2 ^ 32
      rw [Nat.add_zero, Nat.mod_eq_of_lt h32]⟩
  | n + 1 => by
    obtain ⟨hsnd, hlst, hnext⟩ := md_send_iter_shape st name data sender h h32 n
    have hfind : assoc_find (md_send_iter st name data n).mdSenders name =
        some sender := by
      rw [hsnd]
      exact h
    obtain ⟨st', evs, heq, hsnd', hlst', hnext'⟩ :=
      send_md_request_shape (md_send_iter st name data n) name data sender hfind
    unfold md_send_iter
    rw [heq]
    dsimp only
    refine ⟨by rw [hsnd', hsnd], by rw [hlst', hlst], ?_⟩
    rw [hnext', hnext, Nat.mod_add_mod]
    omega

/-- make_session_id determines its argument modulo the 32-bit range: the four
low bytes of the id recover the counter value. -/
theorem make_session_id_inj {a b : Nat}
    (h : make_session_id a = make_session_id b) : a % 2 ^ 32 = b % 2 ^ 32 := by
  have hrange : List.range MdSessionIdSize =
      [0, 1, 2, 3, 4, 5, 6, 7, 8, 9, 10, 11, 12, 13, 14, 15] := rfl
  unfold make_session_id at h
  rw [hrange] at h
  simp only [List.map_cons, List.map_nil, List.cons.injEq, and_true] at h
  obtain ⟨-, -, -, -, -, -, -, -, -, -, -, -, h12, h13, h14, h15⟩ := h
  have ha : a % 2 ^ 32 < 2 ^ 32 := Nat.mod_lt _ (by norm_num)
  have hb : b % 2 ^ 32 < 2 ^ 32 := Nat.mod_lt _ (by norm_num)
  simp only [Nat.shiftRight_eq_div_pow, MdSessionIdSize] at h12 h13 h14 h15
  norm_num at h12 h13 h14 h15
  omega

theorem assoc_set_keys_nodup {α β : Type} [DecidableEq α] (m : List (α × β))
    (k : α) (v : β) (h : (m.map Prod.fst).Nodup) :
    ((assoc_set m k v).map Prod.fst).Nodup := by
  unfold assoc_set
  rw [List.map_cons]
  refine List.Nodup.cons ?_ ?_
  · intro hmem
    obtain ⟨p, hp, hfst⟩ := List.mem_map.mp hmem
    have hne := (List.mem_filter.mp hp).2
    simp only [ne_eq, decide_not, Bool.not_eq_true', decide_eq_false_iff_not] at hne
    exact hne hfst
  · exact List.Nodup.sublist (List.Sublist.map Prod.fst (List.filter_sublist m)) h

theorem assoc_erase_keys_nodup {α β : Type} [DecidableEq α] (m : List (α × β))
    (k : α) (h : (m.map Prod.fst).Nodup) :
    ((assoc_erase m k).map Prod.fst).Nodup :=
  List.Nodup.sublist (List.Sublist.map Prod.fst (List.filter_sublist m)) h

theorem publish_pd_sessions (st : AdapterState) (name : String) (data : Bytes)
    (st' : AdapterState) (evs : List (Nat × PdMessage))
    (h : publish_pd st name data = Except.ok (st', evs)) :
    st'.mdSessions = st.mdSessions := by
  cases hfind : assoc_find st.pdPublishers name with
  | none => simp [publish_pd, hfind] at h
  | some pub =>
    rw [publish_pd_eq st name data pub hfind] at h
    injection h with hpair
    have hfst : _ = st' := congrArg Prod.fst hpair
    rw [← hfst]

theorem send_md_request_sessions_nodup (st : AdapterState) (name : String)
    (data : Bytes) (st' : AdapterState) (evs : List MdEvent)
    (h : send_md_request st name data = Except.ok (st', evs))
    (hn : (st.mdSessions.map Prod.fst).Nodup) :
    (st'.mdSessions.map Prod.fst).Nodup := by
  cases hfind : assoc_find st.mdSenders name with
  | none => simp [send_md_request, hfind] at h
  | some sender =>
    simp only [send_md_request, hfind] at h
    have hsess1 : (((if sender.hasReplyHandler then
        assoc_set st.mdSessions (make_session_id st.nextSessionId)
          (MdSessionState.mk name true)
      else st.mdSessions)).map Prod.fst).Nodup := by
      split
      · exact assoc_set_keys_nodup _ _ _ hn
      · exact hn
    split at h <;>
    · injection h with hpair
      have hfst : _ = st' := congrArg Prod.fst hpair
      rw [← hfst]
      first
      | exact assoc_erase_keys_nodup _ _ hsess1
      | exact hsess1

theorem send_md_reply_sessions_nodup (st : AdapterState) (ln : String)
    (req : MdMessage) (d : Bytes)
    (hn : (st.mdSessions.map Prod.fst).Nodup) :
    (((send_md_reply st ln req d).1.mdSessions).map Prod.fst).Nodup := by
  cases hfind : assoc_find st.mdSessions req.sessionId with
  | none =>
    rw [send_md_reply_none st ln req d hfind]
    exact hn
  | some sess =>
    cases hh : sess.hasReplyHandler with
    | false =>
      rw [send_md_reply_found_nohandler st ln req d sess hfind hh]
      exact assoc_erase_keys_nodup _ _ hn
    | true =>
      rw [send_md_reply_found st ln req d sess hfind hh]
      exact assoc_erase_keys_nodup _ _ hn

/-- Every adapter operation preserves distinctness of the pending-session
map's keys: no two live sessions ever share an id. -/
theorem applyOp_keys_nodup (st : AdapterState) (op : AdapterOp)
    (h : (st.mdSessions.map Prod.fst).Nodup) :
    (((applyOp st op).mdSessions).map Prod.fst).Nodup := by
  cases op with
  | registerPdPublisher config => exact h
  | registerPdSubscriber config hh => exact h
  | publishPd name data =>
    show (((match publish_pd st name data with
        | .ok (st', _) => st'
        | .error _ => st).mdSessions).map Prod.fst).Nodup
    cases hres : publish_pd st name data with
    | error e => exact h
    | ok pr =>
      obtain ⟨st', evs⟩ := pr
      rw [publish_pd_sessions st name data st' evs hres]
      exact h
  | registerMdSender config hh => exact h
  | sendMdRequest name data =>
    show (((match send_md_request st name data with
        | .ok (st', _) => st'
        | .error _ => st).mdSessions).map Prod.fst).Nodup
    cases hres : send_md_request st name data with
    | error e => exact h
    | ok pr =>
      obtain ⟨st', evs⟩ := pr
      exact send_md_request_sessions_nodup st name data st' evs hres h
  | registerMdListener config hh => exact h
  | sendMdReply ln req d => exact send_md_reply_sessions_nodup st ln req d h
  | shutdownOp => exact List.nodup_nil

theorem runOps_keys_nodup :
    ∀ (ops : List AdapterOp) (st : AdapterState),
      (st.mdSessions.map Prod.fst).Nodup →
      (((runOps st ops).mdSessions).map Prod.fst).Nodup
  | [], _, h => h
  | op :: rest, st, h =>
    runOps_keys_nodup rest (applyOp st op) (applyOp_keys_nodup st op h)

/-- A sender registered without a reply handler, so requests leave no
pending sessions behind. -/
def c4_sender : MdSenderConfig :=
  { name := "s", comId := 5, replyComId := 0, sourceIp := "", destIp := "",
    cycleTimeMs := 0, replyTimeoutMs := 1000, expectReply := false,
    payload := { format := PayloadFormat.Hex, value := "" } }

/-- A listener matching every request (ComId zero, wildcard addresses). -/
def c4_listener : MdListenerConfig :=
  { name := "l", comId := 0, sourceIp := "", destIp := "", autoReply := false,
    replyPayload := { format := PayloadFormat.Hex, value := "" } }

/-- The adapter the C4 runs start from: one sender, one catch-all
listener. -/
def c4_state0 : AdapterState :=
  register_md_listener (register_md_sender initialAdapterState c4_sender false)
    c4_listener true

/-- The adapter after n send_md_request calls from c4_state0. -/
def c4_state (n : Nat) : AdapterState :=
  md_send_iter c4_state0 "s" [] n

/-- The events of the next send_md_request call from a given adapter
state. -/
def md_request_events (st : AdapterState) (name : String) (data : Bytes) :
    List MdEvent :=
  match send_md_request st name data with
  | .ok (_, evs) => evs
  | .error _ => []

/-- The session id carried by the first delivered request of an event
list. -/
def first_request_session : List MdEvent → MdSessionId
  | MdEvent.toListener _ m :: _ => m.sessionId
  | _ => []

/-- The full evaluation of send_md_request for a registered sender without a
reply handler: no session is recorded and no synthetic reply occurs; the
request still goes to every matching listener and the counter advances. -/
theorem send_md_request_eq_nohandler (st : AdapterState) (name : String)
    (data : Bytes) (sender : MdSenderState)
    (h : assoc_find st.mdSenders name = some sender)
    (hh : sender.hasReplyHandler = false) :
    send_md_request st name data = Except.ok
      ({ st with nextSessionId := (st.nextSessionId + 1) % 2 ^ 32 },
       (st.mdListeners.filter
          (fun l => matches_md_listener l.config sender.config)).filterMap
         (fun l => if l.hasHandler then
            some (MdEvent.toListener l.config.name
              { endpoint := fallback_endpoint name sender.config.sourceIp,
                comId := sender.config.comId, payload := data,
                sessionId := make_session_id st.nextSessionId })
          else none)) := by
  simp [send_md_request, h, hh]

theorem c4_next_lt : c4_state0.nextSessionId < 2 ^ 32 := by
  decide

theorem c4_events_eq (n : Nat) :
    md_request_events (c4_state n) "s" [] =
      [MdEvent.toListener "l"
        { endpoint := "s", comId := 5, payload := [],
          sessionId := make_session_id ((1 + n) % 2 ^ 32) }] := by
  obtain ⟨hsnd, hlst, hnext⟩ := md_send_iter_shape c4_state0 "s" []
    (MdSenderState.mk c4_sender false) rfl c4_next_lt n
  have hfind : assoc_find (c4_state n).mdSenders "s" =
      some (MdSenderState.mk c4_sender false) := by
    show assoc_find (md_send_iter c4_state0 "s" [] n).mdSenders "s" = _
    rw [hsnd]
    rfl
  unfold md_request_events
  rw [send_md_request_eq_nohandler (c4_state n) "s" []
    (MdSenderState.mk c4_sender false) hfind rfl]
  show ((c4_state n).mdListeners.filter _).filterMap _ = _
  unfold c4_state
  rw [hlst, hnext]
  rfl

/-- C4 counterexample: the session id generated by the first
send_md_request equals the id generated by send number 2^32 + 1 of the same
run, so a generated id can equal a previously generated one and the claimed
for-any-sequence freshness fails (the counter is a wrapping uint32). -/
theorem C4_counterexample :
    first_request_session (md_request_events (c4_state 0) "s" []) =
      first_request_session (md_request_events (c4_state (2 ^ 32)) "s" []) ∧
    md_request_events (c4_state 0) "s" [] ≠ [] ∧
    md_request_events (c4_state (2 ^ 32)) "s" [] ≠ [] ∧
    (0 : Nat) ≠ 2 ^ 32 := by
  rw [c4_events_eq 0, c4_events_eq (2 ^ 32)]
  refine ⟨?_, by simp, by simp, by norm_num⟩
  simp only [first_request_session]
  norm_num

/-- C4 as amended: each send draws the next value of a wrapping 32-bit
counter, so the ids generated by any window of at most 2^32 consecutive
sends are pairwise distinct (reuse occurs only once the counter has wrapped
past 2^32 further requests), and at every reachable state no two live
pending sessions share an id. -/
theorem C4_amended_session_id_freshness (st : AdapterState) (name : String)
    (data : Bytes) (sender : MdSenderState)
    (h : assoc_find st.mdSenders name = some sender)
    (h32 : st.nextSessionId < 2 ^ 32) :
    (∀ i j, i < j → j < 2 ^ 32 →
      make_session_id ((md_send_iter st name data i).nextSessionId) ≠
      make_session_id ((md_send_iter st name data j).nextSessionId)) ∧
    (∀ ops, (((runOps initialAdapterState ops).mdSessions).map Prod.fst).Nodup) := by
  constructor
  · intro i j hij hj
    obtain ⟨-, -, hnexti⟩ := md_send_iter_shape st name data sender h h32 i
    obtain ⟨-, -, hnextj⟩ := md_send_iter_shape st name data sender h h32 j
    rw [hnexti, hnextj]
    intro hcon
    have hmod := make_session_id_inj hcon
    omega
  · intro ops
    exact runOps_keys_nodup ops initialAdapterState (by simp [initialAdapterState])

/-- Witness for the amended C4 at the concrete adapter c4_state0. -/
theorem C4_amended_session_id_freshness_witness :
    assoc_find c4_state0.mdSenders "s" = some (MdSenderState.mk c4_sender false) ∧
    c4_state0.nextSessionId < 2 ^ 32 ∧
    ((∀ i j, i < j → j < 2 ^ 32 →
      make_session_id ((md_send_iter c4_state0 "s" [] i).nextSessionId) ≠
      make_session_id ((md_send_iter c4_state0 "s" [] j).nextSessionId)) ∧
    (∀ ops, (((runOps initialAdapterState ops).mdSessions).map Prod.fst).Nodup)) :=
  ⟨rfl, c4_next_lt,
   C4_amended_session_id_freshness c4_state0 "s" [] (MdSenderState.mk c4_sender false)
     rfl c4_next_lt⟩

/-- Witness for C6 at the concrete input "0A 1b". -/
theorem C6_hex_whitespace_resolution_witness :
    (∀ c ∈ "0A 1b".data, is_hex_digit c = true ∨ is_space_char c = true) ∧
    ("0A 1b".data.filter (fun c => is_hex_digit c)).length % 2 = 0 ∧
    (∃ bs, load_payload (fun _ => none) { format := PayloadFormat.Hex, value := "0A 1b" } =
        Except.ok bs ∧
      load_payload (fun _ => none)
        { format := PayloadFormat.Hex, value := strip_whitespace "0A 1b" } = Except.ok bs) :=
  ⟨by decide, by decide,
    (C6_hex_whitespace_resolution (fun _ => none) "0A 1b").1 (by decide) (by decide)⟩

end TrdpSim
